import Mathlib

/-!
# Verification of the zign token-acquisition core (`zign/api.py`)

Shallow embedding of the single source module `zign/api.py`.  Python dicts
holding JSON/YAML data are modelled as association lists over a small value
type `JVal`; Python truthiness of optional strings, optional booleans and
dict values is made explicit; exceptions become an `Exc` error type threaded
through `Except`; every external collaborator (HTTP transport, keyring,
tokens library, configuration store, interactive prompt streams, clock) is a
parameter of the embedded function.  Time is modelled as `Int` seconds.
-/

/-- A JSON/YAML scalar value as stored inside a token record. -/
inductive JVal where
  | jstr (s : String)
  | jnum (n : Int)
  | jbool (b : Bool)
  | jnull
deriving DecidableEq, Repr

/-- Python truthiness of a `JVal` (empty string, 0, `False`, `None` are falsy). -/
def JVal.truthy : JVal → Bool
  | .jstr s => !s.isEmpty
  | .jnum n => n != 0
  | .jbool b => b
  | .jnull => false

/-- Python truthiness of `dict.get(key)`: a missing key yields `None`, falsy. -/
def jvalOptTruthy : Option JVal → Bool
  | none => false
  | some v => v.truthy

/-- Python truthiness of an optional string (`None` and `''` are falsy). -/
def optStrTruthy : Option String → Bool
  | none => false
  | some s => !s.isEmpty

/-- Python truthiness of an optional boolean (`None` is falsy). -/
def optBoolTruthy : Option Bool → Bool
  | none => false
  | some b => b

/-- A Python dict with string keys, in insertion order (token record, JSON body). -/
abbrev Dict := List (String × JVal)

/-- Python dict truthiness: an empty dict is falsy. -/
def dictTruthy (d : Dict) : Bool := !d.isEmpty

/-- `d[k] = v` on an association list: replace in place, or append at the end,
matching Python dict assignment with insertion order preserved. -/
def alSet {α : Type} (l : List (String × α)) (k : String) (v : α) : List (String × α) :=
  match l with
  | [] => [(k, v)]
  | (k', v') :: rest => if k' == k then (k, v) :: rest else (k', v') :: alSet rest k v

/-- The on-disk token cache: token name → token record. -/
abbrev Cache := List (String × Dict)

/-- Read of a numeric record field with a default, as in
`token.get('creation_time', 0)`.  Token records store their time fields as
numbers; a non-numeric value there would be a runtime type error in the
source and is outside the model. -/
def dictGetNum (d : Dict) (k : String) (dflt : Int) : Int :=
  match d.lookup k with
  | some (JVal.jnum n) => n
  | _ => dflt

/-- `TOKEN_MINIMUM_VALIDITY_SECONDS = 60*5` from the source. -/
def TOKEN_MINIMUM_VALIDITY_SECONDS : Int := 60 * 5

/-- Exceptions raised (or caught) by the module: zign's own `ServerError`,
`AuthenticationFailed`, `ConfigurationError`, the `tokens` library's two
documented exception classes plus its other possible failures, and Python's
`KeyError` from a `dict[...]` access. -/
inductive Exc where
  | authenticationFailed (msg : String)
  | serverError (msg : String)
  | configurationError (msg : String)
  | tokensConfigurationError
  | tokensInvalidCredentialsError
  | tokensOtherError (msg : String)
  | keyError (k : String)
deriving DecidableEq, Repr

/-- Does `except AuthenticationFailed` catch this exception? -/
def isAuthenticationFailed : Exc → Bool
  | .authenticationFailed _ => true
  | _ => false

/-- The `zign` configuration mapping (fields read by the module). -/
structure Config where
  url : Option String := none
  user : Option String := none
  realm : Option String := none
  insecure : Option Bool := none
deriving DecidableEq, Repr

/-- An HTTP response from the token service: status code, body text, and the
result of `response.json()` (`none` when the body is not valid JSON). -/
structure Response where
  status_code : Nat
  text : String
  jsonBody : Option Dict
deriving DecidableEq, Repr

/-- An HTTP GET transport: url, query params, basic-auth pair, verify flag. -/
abbrev Http := Option String → List (String × String) → String × Option String → Bool → Response

/-- `get_tokens()`: load the cache file.  The raw outcome of open+parse is
either an exception (`Except.error`) or the parsed value (`yaml.safe_load`
may yield `None`); any exception gives `data = None`, and `data or {}`
turns a falsy load result into the empty cache. -/
def get_tokens (raw : Except Unit (Option Cache)) : Cache :=
  match raw with
  | .error _ => []
  | .ok none => []
  | .ok (some c) => c

/-- `is_valid(token)`: truthy record and
`now < creation_time + expires_in - TOKEN_MINIMUM_VALIDITY_SECONDS`,
with both fields defaulting to 0. -/
def is_valid (token : Option Dict) (now : Int) : Bool :=
  match token with
  | none => false
  | some t =>
      dictTruthy t &&
        decide (now < dictGetNum t "creation_time" 0 + dictGetNum t "expires_in" 0 -
          TOKEN_MINIMUM_VALIDITY_SECONDS)

/-- `is_user_scope(scope)`: membership in the literal set `{'uid', 'cn'}`. -/
def is_user_scope (scope : String) : Bool :=
  (["uid", "cn"]).contains scope

/-- `get_existing_token(name)`: look the name up in a freshly loaded cache and
return the record only if `is_valid` accepts it. -/
def get_existing_token (raw : Except Unit (Option Cache)) (name : String) (now : Int) :
    Option Dict :=
  let data := get_tokens raw
  let existing_token := data.lookup name
  if is_valid existing_token now then existing_token else none

/-- `store_token(name, result)`: load the cache, set
`data[name] = result` and `data[name]['creation_time'] = time.time()`, and
return the mapping that is rewritten to the cache file (directory creation
and the YAML write itself are I/O outside the model). -/
def store_token (raw : Except Unit (Option Cache)) (name : String) (result : Dict) (now : Int) :
    Cache :=
  let data := get_tokens raw
  alSet data name (alSet result "creation_time" (JVal.jnum now))

/-- The query parameters built by `get_new_token`: `json=true`, `realm` when
truthy, and `scope` (space-joined user scopes) when the scope list is
non-empty. -/
def requestParams (realm : Option String) (scope : List String) : List (String × String) :=
  let params := [("json", "true")]
  let params := if optStrTruthy realm then params ++ [("realm", realm.getD "")] else params
  if !scope.isEmpty then
    params ++ [("scope", String.intercalate " " (scope.filter is_user_scope))]
  else params

/-- `get_new_token(realm, scope, user, password, url, insecure)`: resolve the
url from the argument or configuration, perform the GET, and map the
response: 401 → `AuthenticationFailed`, other non-200 → `ServerError`,
unparseable body → `ServerError`, falsy `access_token` → `ServerError`,
otherwise return the parsed body. -/
def get_new_token (config : Config) (realm : Option String) (scope : List String)
    (user : String) (password : Option String) (url : Option String) (insecure : Bool)
    (http : Http) : Except Exc Dict :=
  let url := if optStrTruthy url then url else config.url
  let params := requestParams realm scope
  let response := http url params (user, password) (!insecure)
  if response.status_code == 401 then
    .error (.authenticationFailed ("Token Service returned " ++ response.text))
  else if response.status_code != 200 then
    .error (.serverError ("Token Service returned HTTP status " ++
      toString response.status_code ++ ": " ++ response.text))
  else
    match response.jsonBody with
    | none => .error (.serverError "Token Service returned invalid JSON data")
    | some json_data =>
        if !jvalOptTruthy (json_data.lookup "access_token") then
          .error (.serverError "Token Service returned invalid JSON (access_token missing)")
        else .ok json_data

/-- `get_service_token(name, scopes)`: `fetched` is the outcome of
`tokens.get(name)` after `tokens.manage(name, scopes)`; the two documented
exception classes are swallowed into `None`, anything else propagates. -/
def get_service_token (fetched : Except Exc String) : Except Exc (Option String) :=
  match fetched with
  | .ok t => .ok (some t)
  | .error Exc.tokensConfigurationError => .ok none
  | .error Exc.tokensInvalidCredentialsError => .ok none
  | .error e => .error e

/-- First truthy value of a Python `a or b or c` chain over optional strings. -/
def firstTruthy : List (Option String) → Option String
  | [] => none
  | o :: rest => if optStrTruthy o then o else firstTruthy rest

/-- Outcome of the `while True` password loop in `get_named_token`. -/
inductive LoopRes where
  | success (result : Dict) (password : Option String)
  | failure (e : Exc)
  | outOfPrompts
deriving DecidableEq, Repr

/-- Loop outcome together with the number of token-service requests made. -/
structure LoopOut where
  res : LoopRes
  calls : Nat
deriving DecidableEq, Repr

/-- The `while True` loop of `get_named_token`: prompt for a password when
the current one is falsy and `prompt` is set, call `get_new_token`, break on
success, and on `AuthenticationFailed` clear the password and retry when
`prompt` is set, else re-raise.  The interactive input is modelled as the
stream `prompts`; an exhausted stream means the loop is still blocked on
user input (`outOfPrompts`). -/
def passwordLoop (getNew : Option String → Except Exc Dict) (prompt : Bool) :
    Option String → List String → LoopOut
  | password, prompts =>
    if h : (!optStrTruthy password && prompt) = true then
      match prompts with
      | [] => ⟨.outOfPrompts, 0⟩
      | p :: rest =>
          match getNew (some p) with
          | .ok r => ⟨.success r (some p), 1⟩
          | .error e =>
              if isAuthenticationFailed e then
                let o := passwordLoop getNew prompt none rest
                ⟨o.res, o.calls + 1⟩
              else ⟨.failure e, 1⟩
    else
      match getNew password with
      | .ok r => ⟨.success r password, 1⟩
      | .error e =>
          if h2 : (isAuthenticationFailed e && prompt) = true then
            let o := passwordLoop getNew prompt none prompts
            ⟨o.res, o.calls + 1⟩
          else ⟨.failure e, 1⟩
termination_by password prompts => prompts.length * 2 + (if optStrTruthy password then 1 else 0)
decreasing_by
  · have h0 : (if optStrTruthy (none : Option String) = true then 1 else 0) = 0 := rfl
    rw [h0, List.length_cons]
    split <;> omega
  · simp only [Bool.and_eq_true, Bool.not_eq_true', not_and] at h h2
    have hp : optStrTruthy password = true := by
      rcases Bool.eq_false_or_eq_true (optStrTruthy password) with ht | hf
      · exact ht
      · exact absurd h2.2 (h hf)
    have h0 : (if optStrTruthy (none : Option String) = true then 1 else 0) = 0 := rfl
    have h1 : (if optStrTruthy password = true then 1 else 0) = 1 := by rw [hp]; rfl
    rw [h0, h1]
    omega

/-- The `while not url and prompt` loop of `get_named_token`, one iteration
per prompted URL: probe the URL with an unauthenticated request (`probe`
abstracts `requests.get(url, timeout=5, ...)`, `false` meaning it raised);
on failure reset the URL, record `config['url'] = url` either way, and loop.
`none` means the prompt stream ran out while the loop was still going. -/
def urlLoop (probe : String → Bool) (config : Config) :
    List String → Option (Option String × Config)
  | [] => none
  | u :: rest =>
      if probe u then some (some u, { config with url := some u })
      else urlLoop probe { config with url := none } rest

/-- URL resolution step of `get_named_token`: enter the prompt loop only
while the resolved URL is falsy and `prompt` is set. -/
def resolveUrl (probe : String → Bool) (prompt : Bool) (url0 : Option String)
    (config : Config) (prompts : List String) : Option (Option String × Config) :=
  if !optStrTruthy url0 && prompt then urlLoop probe config prompts
  else some (url0, config)

/-- All external collaborators and ambient state consumed by the two
orchestrator entry points. -/
structure Env where
  cacheRaw : Except Unit (Option Cache)
  config : Config
  keyring_pw : Option String
  zign_user : Option String
  os_user : Option String
  zign_password : Option String
  tokensGet : String → List String → Except Exc String
  http : Http
  probe : String → Bool
  urlPrompts : List String
  pwPrompts : List String
  now : Int

/-- What `get_named_token` returned (or how it terminated). -/
inductive NamedRes where
  | cached (tok : Dict)
  | serviceTok (t : String)
  | issued (result : Dict)
  | failed (e : Exc)
  | pendingUrl
  | pendingPassword
deriving DecidableEq, Repr

/-- Result of `get_named_token` together with its observable side effects:
the configuration written by `store_config`, the record written by
`store_token`, the password persisted to the keyring, and how many
token-service requests were made. -/
structure NamedOutcome where
  res : NamedRes
  storedConfig : Option Config := none
  storedToken : Option (String × Dict) := none
  keyringSet : Option (String × Option String) := none
  httpCalls : Nat := 0
deriving DecidableEq, Repr

/-- `get_named_token(scope, realm, name, user, password, url, insecure,
refresh, use_keyring, prompt)`: cached-token check, service-token attempt,
URL resolution (with unconditional `store_config`), password resolution from
argument or keyring, the password loop, then keyring/cache persistence. -/
def get_named_token (env : Env) (scope : List String) (realm name : Option String)
    (user : String) (password url : Option String)
    (insecure refresh use_keyring prompt : Bool) : NamedOutcome :=
  match (if optStrTruthy name && !refresh then
           get_existing_token env.cacheRaw (name.getD "") env.now
         else none) with
  | some existing_token => { res := .cached existing_token }
  | none =>
    match (if optStrTruthy name && !optStrTruthy realm then
             get_service_token (env.tokensGet (name.getD "") scope)
           else .ok none) with
    | .error e => { res := .failed e }
    | .ok access_token =>
      if optStrTruthy access_token then { res := .serviceTok (access_token.getD "") }
      else
        let config := env.config
        let url0 := if optStrTruthy url then url else config.url
        match resolveUrl env.probe prompt url0 config env.urlPrompts with
        | none => { res := .pendingUrl }
        | some (url1, config1) =>
          let pw0 := if optStrTruthy password then password else env.keyring_pw
          let getNew := fun pw =>
            get_new_token config1 realm scope user pw url1 insecure env.http
          let lo := passwordLoop getNew prompt pw0 env.pwPrompts
          match lo.res with
          | .outOfPrompts =>
              { res := .pendingPassword, storedConfig := some config1, httpCalls := lo.calls }
          | .failure e =>
              { res := .failed e, storedConfig := some config1, httpCalls := lo.calls }
          | .success result finalPw =>
              { res := .issued result
                storedConfig := some config1
                storedToken :=
                  if optStrTruthy name then
                    some (name.getD "", alSet result "creation_time" (JVal.jnum env.now))
                  else none
                keyringSet :=
                  if dictTruthy result && use_keyring then some (user, finalPw) else none
                httpCalls := lo.calls }

/-- What `get_token` returned. -/
inductive GetRes where
  | value (v : JVal)
  | noneReturned
  | raised (e : Exc)
deriving DecidableEq, Repr

/-- Result of `get_token` with its observable side effects: the record
written by `store_token`, whether execution reached the password-resolution
step, and how many token-service requests were made. -/
structure GetOut where
  res : GetRes
  storedToken : Option (String × Dict) := none
  passwordResolved : Bool := false
  httpCalls : Nat := 0
deriving DecidableEq, Repr

/-- The `ConfigurationError` message for a missing username. -/
def missingUserMsg : String :=
  "Missing OAuth username. " ++
    "Either set \"user\" in configuration file or ZIGN_USER environment variable."

/-- The `ConfigurationError` message for a missing token-service URL. -/
def missingUrlMsg : String :=
  "Missing OAuth access token service URL. " ++ "Please set \"url\" in configuration file."

/-- `get_token(name, scopes)`: cached-token check, service-token attempt,
user and URL configuration checks (each raising `ConfigurationError`),
password resolution from `ZIGN_PASSWORD` or the keyring, a single
`get_new_token` call, then persistence and return of the access token. -/
def get_token (env : Env) (name : String) (scopes : List String) : GetOut :=
  match get_existing_token env.cacheRaw name env.now with
  | some token =>
      match token.lookup "access_token" with
      | some v => { res := .value v }
      | none => { res := .raised (.keyError "access_token") }
  | none =>
    match get_service_token (env.tokensGet name scopes) with
    | .error e => { res := .raised e }
    | .ok access_token =>
      if optStrTruthy access_token then { res := .value (.jstr (access_token.getD "")) }
      else
        let config := env.config
        let user := firstTruthy [config.user, env.zign_user, env.os_user]
        if !optStrTruthy user then
          { res := .raised (.configurationError missingUserMsg) }
        else if !optStrTruthy config.url then
          { res := .raised (.configurationError missingUrlMsg) }
        else
          let password :=
            if optStrTruthy env.zign_password then env.zign_password else env.keyring_pw
          match get_new_token config config.realm scopes (user.getD "") password config.url
              (optBoolTruthy config.insecure) env.http with
          | .error e =>
              { res := .raised e, passwordResolved := true, httpCalls := 1 }
          | .ok token =>
              if dictTruthy token then
                match token.lookup "access_token" with
                | some v =>
                    { res := .value v
                      storedToken :=
                        some (name, alSet token "creation_time" (JVal.jnum env.now))
                      passwordResolved := true, httpCalls := 1 }
                | none =>
                    { res := .raised (.keyError "access_token")
                      storedToken :=
                        some (name, alSet token "creation_time" (JVal.jnum env.now))
                      passwordResolved := true, httpCalls := 1 }
              else { res := .noneReturned, passwordResolved := true, httpCalls := 1 }

/-- A transport that always returns the same response. -/
def respond (resp : Response) : Http := fun _ _ _ _ => resp

/-- Password-dependent transport: succeeds only for the given password. -/
def pwHttp (good : String) (ok bad : Response) : Http :=
  fun _ _ auth _ => if auth.2 == some good then ok else bad

/-- Did the call end in `AuthenticationFailed`? -/
def resultAuthFailed : Except Exc Dict → Bool
  | .error e => isAuthenticationFailed e
  | .ok _ => false

/-- A successful token-service response body used in concrete test runs. -/
def okBody : Dict := [("access_token", JVal.jstr "tok"), ("expires_in", JVal.jnum 3600)]

/-- Concrete environment with no resolvable username anywhere. -/
def envNoUser : Env :=
  { cacheRaw := Except.error (), config := {}, keyring_pw := none, zign_user := none,
    os_user := none, zign_password := none,
    tokensGet := fun _ _ => Except.error Exc.tokensConfigurationError,
    http := respond ⟨401, "bad", none⟩, probe := fun _ => true,
    urlPrompts := [], pwPrompts := [], now := 0 }

/-- Concrete environment with a configured URL, for the frame-effect run. -/
def envExplicitUrl : Env :=
  { cacheRaw := Except.error (), config := { url := some "http://configured" },
    keyring_pw := none, zign_user := none, os_user := none, zign_password := none,
    tokensGet := fun _ _ => Except.error Exc.tokensConfigurationError,
    http := respond ⟨401, "bad", none⟩, probe := fun _ => true,
    urlPrompts := [], pwPrompts := [], now := 0 }

/-- Concrete environment where only the password "good" is accepted and the
prompt stream supplies it. -/
def envRetry : Env :=
  { cacheRaw := Except.error (), config := { url := some "http://configured" },
    keyring_pw := none, zign_user := none, os_user := none, zign_password := none,
    tokensGet := fun _ _ => Except.error Exc.tokensConfigurationError,
    http := pwHttp "good" ⟨200, "ok", some okBody⟩ ⟨401, "bad", none⟩,
    probe := fun _ => true, urlPrompts := [], pwPrompts := ["good"], now := 0 }

theorem optStrTruthy_none : optStrTruthy none = false := rfl

theorem alSet_lookup_eq {α : Type} (l : List (String × α)) (k : String) (v : α) :
    (alSet l k v).lookup k = some v := by
  induction l with
  | nil => simp [alSet, List.lookup]
  | cons hd tl ih =>
    obtain ⟨k', v'⟩ := hd
    by_cases hk : k' = k
    · simp [alSet, hk, List.lookup]
    · have hbe : (k == k') = false := beq_eq_false_iff_ne.mpr (Ne.symm hk)
      simp [alSet, hk, List.lookup, hbe, ih]

theorem alSet_lookup_ne {α : Type} (l : List (String × α)) (k k' : String) (v : α)
    (h : k' ≠ k) : (alSet l k v).lookup k' = l.lookup k' := by
  have hbe : (k' == k) = false := beq_eq_false_iff_ne.mpr h
  induction l with
  | nil => simp [alSet, List.lookup, hbe]
  | cons hd tl ih =>
    obtain ⟨k0, v0⟩ := hd
    by_cases hk : k0 = k
    · subst hk
      simp [alSet, List.lookup, hbe]
    · simp [alSet, hk, List.lookup, ih]

theorem get_named_token_issuance (env : Env) (scope : List String) (realm name : Option String)
    (user : String) (password url : Option String)
    (insecure refresh use_keyring prompt : Bool)
    (url1 : Option String) (config1 : Config) (v : Option String)
    (hcache : (if optStrTruthy name && !refresh then
        get_existing_token env.cacheRaw (name.getD "") env.now else none) = none)
    (hv : (if optStrTruthy name && !optStrTruthy realm then
        get_service_token (env.tokensGet (name.getD "") scope) else .ok none) = Except.ok v)
    (hvf : optStrTruthy v = false)
    (hpr : resolveUrl env.probe prompt (if optStrTruthy url then url else env.config.url)
        env.config env.urlPrompts = some (url1, config1)) :
    get_named_token env scope realm name user password url insecure refresh use_keyring prompt =
      (let getNew := fun pw => get_new_token config1 realm scope user pw url1 insecure env.http
       let lo := passwordLoop getNew prompt
         (if optStrTruthy password then password else env.keyring_pw) env.pwPrompts
       match lo.res with
       | .outOfPrompts =>
           { res := .pendingPassword, storedConfig := some config1, httpCalls := lo.calls }
       | .failure e =>
           { res := .failed e, storedConfig := some config1, httpCalls := lo.calls }
       | .success result finalPw =>
           { res := .issued result
             storedConfig := some config1
             storedToken :=
               if optStrTruthy name then
                 some (name.getD "", alSet result "creation_time" (JVal.jnum env.now))
               else none
             keyringSet :=
               if dictTruthy result && use_keyring then some (user, finalPw) else none
             httpCalls := lo.calls }) := by
  simp only [get_named_token]
  rw [hcache]
  simp only []
  rw [hv]
  simp only []
  rw [if_neg (by simp [hvf])]
  rw [hpr]

/-- Claim C1, counterexample to the claim as stated: a record with
`creation_time = 0`, `expires_in = 300` checked at `now = 0` has remaining
validity `creation_time + expires_in - now = 300 ≥ 300`, yet `is_valid`
returns `false`, because the source comparison
`now < creation_time + expires_in - 300` is strict. -/
theorem is_valid_grace_boundary_counterexample :
    ((0 : Int) + 300 - 0 ≥ 300) ∧
    is_valid (some [("access_token", JVal.jstr "t"), ("creation_time", JVal.jnum 0),
      ("expires_in", JVal.jnum 300)]) 0 = false :=
  ⟨by norm_num, rfl⟩

/-- Claim C1 (amended): for a record carrying numeric `creation_time = c` and
`expires_in = e`, `is_valid` returns `true` iff the remaining validity
`c + e - now` is strictly greater than 300 seconds (so exactly 300 or less,
including negative, gives `false`), and an absent record is never valid. -/
theorem is_valid_characterization (d : Dict) (c e now : Int)
    (hc : d.lookup "creation_time" = some (JVal.jnum c))
    (he : d.lookup "expires_in" = some (JVal.jnum e)) :
    (is_valid (some d) now = true ↔ 300 < c + e - now) ∧ is_valid none now = false := by
  constructor
  · have ht : dictTruthy d = true := by
      cases d with
      | nil => simp [List.lookup] at hc
      | cons a l => rfl
    simp [is_valid, dictGetNum, hc, he, ht, TOKEN_MINIMUM_VALIDITY_SECONDS]
    omega
  · rfl

/-- Claim C1, witness: a record with 1000 seconds remaining is valid. -/
theorem is_valid_characterization_witness :
    is_valid (some [("creation_time", JVal.jnum 0), ("expires_in", JVal.jnum 1000)]) 0 = true :=
  (is_valid_characterization [("creation_time", JVal.jnum 0), ("expires_in", JVal.jnum 1000)]
    0 1000 0 rfl rfl).1.mpr (by norm_num)

/-- Claim C2: an `AuthenticationFailed` from the token service propagates
unchanged out of the password loop when `prompt` is off (one request, no
retry); with `prompt` on, the loop clears the password, prompts, and retries
(two requests when the prompted password succeeds).  The same holds at the
`get_named_token` level with an explicit URL, and `get_token` always
propagates the failure after a single request. -/
theorem auth_failed_retry_policy
    (getNew : Option String → Except Exc Dict) (m : String) (pw : Option String)
    (p : String) (rest : List String) (r : Dict)
    (env : Env) (scope scopes : List String) (realm : Option String) (name user : String)
    (password url : Option String) (insecure use_keyring : Bool)
    (hFail : getNew pw = Except.error (Exc.authenticationFailed m)) :
    (passwordLoop getNew false pw rest = ⟨.failure (.authenticationFailed m), 1⟩) ∧
    (optStrTruthy pw = true → getNew (some p) = Except.ok r →
      passwordLoop getNew true pw (p :: rest) = ⟨.success r (some p), 2⟩) ∧
    (optStrTruthy url = true →
      get_new_token env.config realm scope user
          (if optStrTruthy password then password else env.keyring_pw) url insecure env.http =
        Except.error (Exc.authenticationFailed m) →
      get_named_token env scope realm none user password url insecure false use_keyring false =
        { res := .failed (.authenticationFailed m), storedConfig := some env.config,
          httpCalls := 1 }) ∧
    (optStrTruthy url = true → optStrTruthy password = true →
      get_new_token env.config realm scope user password url insecure env.http =
        Except.error (Exc.authenticationFailed m) →
      get_new_token env.config realm scope user (some p) url insecure env.http = Except.ok r →
      env.pwPrompts = p :: rest →
      get_named_token env scope realm none user password url insecure false false true =
        { res := .issued r, storedConfig := some env.config, httpCalls := 2 }) ∧
    (get_existing_token env.cacheRaw name env.now = none →
      get_service_token (env.tokensGet name scopes) = Except.ok none →
      optStrTruthy (firstTruthy [env.config.user, env.zign_user, env.os_user]) = true →
      optStrTruthy env.config.url = true →
      get_new_token env.config env.config.realm scopes
          ((firstTruthy [env.config.user, env.zign_user, env.os_user]).getD "")
          (if optStrTruthy env.zign_password then env.zign_password else env.keyring_pw)
          env.config.url (optBoolTruthy env.config.insecure) env.http =
        Except.error (Exc.authenticationFailed m) →
      get_token env name scopes =
        { res := .raised (.authenticationFailed m), passwordResolved := true,
          httpCalls := 1 }) := by
  refine ⟨?_, ?_, ?_, ?_, ?_⟩
  · rw [passwordLoop.eq_def]
    simp [hFail, isAuthenticationFailed]
  · intro hpw hok
    have hstep2 : passwordLoop getNew true none (p :: rest) = ⟨.success r (some p), 1⟩ := by
      rw [passwordLoop.eq_def]
      simp [hok, optStrTruthy_none]
    rw [passwordLoop.eq_def]
    simp [hpw, hFail, isAuthenticationFailed, hstep2]
  · intro hu hq1
    have hrw := get_named_token_issuance env scope realm none user password url insecure false
      use_keyring false url env.config none rfl rfl rfl (by simp [resolveUrl, hu])
    rw [hrw]
    have hloop : passwordLoop
        (fun pw => get_new_token env.config realm scope user pw url insecure env.http) false
        (if optStrTruthy password then password else env.keyring_pw) env.pwPrompts =
        ⟨.failure (.authenticationFailed m), 1⟩ := by
      rw [passwordLoop.eq_def]
      simp [hq1, isAuthenticationFailed]
    simp only [hloop]
  · intro hu hpw hq1 hq2 hprompts
    have hrw := get_named_token_issuance env scope realm none user password url insecure false
      false true url env.config none rfl rfl rfl (by simp [resolveUrl, hu])
    rw [hrw]
    have hstep2 : passwordLoop
        (fun pw => get_new_token env.config realm scope user pw url insecure env.http) true none
        (p :: rest) = ⟨.success r (some p), 1⟩ := by
      rw [passwordLoop.eq_def]
      simp [hq2, optStrTruthy_none]
    have hloop : passwordLoop
        (fun pw => get_new_token env.config realm scope user pw url insecure env.http) true
        (if optStrTruthy password then password else env.keyring_pw) env.pwPrompts =
        ⟨.success r (some p), 2⟩ := by
      rw [hprompts, if_pos hpw, passwordLoop.eq_def]
      simp [hpw, hq1, isAuthenticationFailed, hstep2]
    simp only [hloop, optStrTruthy_none, Bool.and_false]
    simp
  · intro hcache2 hsvc2 huser hurl2 hq3
    simp [get_token, hcache2, hsvc2, huser, hurl2, hq3, optStrTruthy_none]

/-- Claim C2, witness: with a service that only accepts the password "good",
an interactive `get_named_token` call starting from the wrong password fails
once, re-prompts, and succeeds on the second request. -/
theorem auth_failed_retry_policy_witness :
    get_named_token envRetry [] none none "u" (some "wrong") (some "http://x") false false false
        true =
      { res := .issued okBody, storedConfig := some envRetry.config, httpCalls := 2 } :=
  (auth_failed_retry_policy
      (fun q => get_new_token envRetry.config none [] "u" q (some "http://x") false envRetry.http)
      "Token Service returned bad" (some "wrong") "good" [] okBody
      envRetry [] [] none "n" "u" (some "wrong") (some "http://x") false false
      rfl).2.2.2.1 rfl rfl rfl rfl rfl

/-- Claim C3: `get_new_token` raises `AuthenticationFailed` exactly when the
HTTP status is 401; any other non-200 status raises `ServerError` carrying
the status and body; a 200 response whose body is not valid JSON raises
`ServerError`; a parsed body lacking the `access_token` field raises
`ServerError`; and a parsed body with a truthy `access_token` is returned. -/
theorem get_new_token_error_mapping (config : Config) (realm : Option String)
    (scope : List String) (user : String) (password url : Option String)
    (insecure : Bool) (resp : Response) :
    (resp.status_code = 401 →
      get_new_token config realm scope user password url insecure (respond resp) =
        .error (.authenticationFailed ("Token Service returned " ++ resp.text))) ∧
    (resp.status_code ≠ 401 → resp.status_code ≠ 200 →
      get_new_token config realm scope user password url insecure (respond resp) =
        .error (.serverError ("Token Service returned HTTP status " ++
          toString resp.status_code ++ ": " ++ resp.text))) ∧
    (resp.status_code = 200 → resp.jsonBody = none →
      get_new_token config realm scope user password url insecure (respond resp) =
        .error (.serverError "Token Service returned invalid JSON data")) ∧
    (∀ d, resp.status_code = 200 → resp.jsonBody = some d →
      d.lookup "access_token" = none →
      get_new_token config realm scope user password url insecure (respond resp) =
        .error (.serverError "Token Service returned invalid JSON (access_token missing)")) ∧
    (∀ d, resp.status_code = 200 → resp.jsonBody = some d →
      jvalOptTruthy (d.lookup "access_token") = true →
      get_new_token config realm scope user password url insecure (respond resp) = .ok d) ∧
    (resultAuthFailed
        (get_new_token config realm scope user password url insecure (respond resp)) = true ↔
      resp.status_code = 401) := by
  refine ⟨?_, ?_, ?_, ?_, ?_, ?_⟩
  · intro h
    simp [get_new_token, respond, h]
  · intro h1 h2
    simp [get_new_token, respond, h1, h2]
  · intro h1 h2
    simp [get_new_token, respond, h1, h2]
  · intro d h1 h2 h3
    simp [get_new_token, respond, h1, h2, h3, jvalOptTruthy]
  · intro d h1 h2 h3
    simp [get_new_token, respond, h1, h2, h3]
  · by_cases h401 : resp.status_code = 401
    · simp [get_new_token, respond, h401, resultAuthFailed, isAuthenticationFailed]
    · by_cases h200 : resp.status_code = 200
      · rcases hb : resp.jsonBody with _ | d
        · simp [get_new_token, respond, h401, h200, hb, resultAuthFailed,
            isAuthenticationFailed]
        · by_cases ht : jvalOptTruthy (d.lookup "access_token") = true
          · simp [get_new_token, respond, h401, h200, hb, ht, resultAuthFailed,
              isAuthenticationFailed]
          · simp [get_new_token, respond, h401, h200, hb, ht, resultAuthFailed,
              isAuthenticationFailed]
      · simp [get_new_token, respond, h401, h200, resultAuthFailed, isAuthenticationFailed]

/-- Claim C3, witness: a 401 response yields `AuthenticationFailed` with the
response body in the message. -/
theorem get_new_token_error_mapping_witness :
    get_new_token {} none [] "u" (some "p") (some "http://x") false
      (respond ⟨401, "bad", none⟩) =
      .error (.authenticationFailed ("Token Service returned " ++ "bad")) :=
  (get_new_token_error_mapping {} none [] "u" (some "p") (some "http://x") false
    ⟨401, "bad", none⟩).1 rfl

/-- Claim C4: the wire `scope` query parameter is present exactly when the
requested scope list is non-empty, and is then the space-joined filtering of
the requested scopes to the user scopes; the filtering is an
order-preserving subsequence containing exactly the requested scopes that
are `uid` or `cn`; requesting `["uid", "openid", "cn"]` yields `uid cn`. -/
theorem scope_filtering_spec (realm : Option String) (scope : List String) :
    ((requestParams realm scope).lookup "scope" =
      if scope.isEmpty then none
      else some (String.intercalate " " (scope.filter is_user_scope))) ∧
    (scope.filter is_user_scope).Sublist scope ∧
    (∀ s, s ∈ scope.filter is_user_scope ↔ s ∈ scope ∧ (s = "uid" ∨ s = "cn")) ∧
    (requestParams realm ["uid", "openid", "cn"]).lookup "scope" = some "uid cn" := by
  refine ⟨?_, List.filter_sublist _, ?_, ?_⟩
  · rcases scope with _ | ⟨s0, srest⟩ <;>
      by_cases hr : optStrTruthy realm <;>
      simp [requestParams, hr, List.lookup]
  · intro s
    simp [List.mem_filter, is_user_scope]
  · by_cases hr : optStrTruthy realm <;> simp [requestParams, hr, List.lookup] <;> rfl

/-- Claim C5: the two documented failure kinds of the service-credential
mechanism — configuration missing and credentials unreadable — are swallowed
by `get_service_token`, which returns an absent token instead of
propagating, for every name and scope list. -/
theorem service_token_swallows_failures (fetch : String → List String → Except Exc String)
    (name : String) (scopes : List String)
    (h : fetch name scopes = .error .tokensConfigurationError ∨
         fetch name scopes = .error .tokensInvalidCredentialsError) :
    get_service_token (fetch name scopes) = .ok none := by
  rcases h with h | h <;> rw [h] <;> rfl

/-- Claim C5, witness: a configuration-missing failure yields an absent
token, not an error. -/
theorem service_token_swallows_failures_witness :
    get_service_token ((fun _ _ => Except.error Exc.tokensConfigurationError) "mytok" ["uid"]) =
      .ok none :=
  service_token_swallows_failures (fun _ _ => Except.error Exc.tokensConfigurationError)
    "mytok" ["uid"] (Or.inl rfl)

/-- Claim C6: with no cached valid token and no service token, `get_token`
raises `ConfigurationError` when no username resolves from configuration,
`ZIGN_USER`, or the OS user in that order, and raises `ConfigurationError`
when a username resolves but no URL is configured; in both cases it does so
before the password-resolution step and without any token-service request. -/
theorem get_token_configuration_errors (env : Env) (name : String) (scopes : List String)
    (hcache : get_existing_token env.cacheRaw name env.now = none)
    (hsvc : get_service_token (env.tokensGet name scopes) = Except.ok none) :
    (optStrTruthy (firstTruthy [env.config.user, env.zign_user, env.os_user]) = false →
      get_token env name scopes = { res := .raised (.configurationError missingUserMsg) }) ∧
    (optStrTruthy (firstTruthy [env.config.user, env.zign_user, env.os_user]) = true →
      optStrTruthy env.config.url = false →
      get_token env name scopes = { res := .raised (.configurationError missingUrlMsg) }) ∧
    (optStrTruthy env.config.user = true →
      firstTruthy [env.config.user, env.zign_user, env.os_user] = env.config.user) ∧
    (optStrTruthy env.config.user = false → optStrTruthy env.zign_user = true →
      firstTruthy [env.config.user, env.zign_user, env.os_user] = env.zign_user) ∧
    (optStrTruthy env.config.user = false → optStrTruthy env.zign_user = false →
      firstTruthy [env.config.user, env.zign_user, env.os_user] = env.os_user ∨
      firstTruthy [env.config.user, env.zign_user, env.os_user] = none) := by
  refine ⟨?_, ?_, ?_, ?_, ?_⟩
  · intro h
    simp [get_token, hcache, hsvc, h, optStrTruthy_none]
  · intro h1 h2
    simp [get_token, hcache, hsvc, h1, h2, optStrTruthy_none]
  · intro h
    simp [firstTruthy, h]
  · intro h1 h2
    simp [firstTruthy, h1, h2]
  · intro h1 h2
    by_cases h3 : optStrTruthy env.os_user = true
    · left
      simp [firstTruthy, h1, h2, h3]
    · right
      simp at h3
      simp [firstTruthy, h1, h2, h3]

/-- Claim C6, witness: with nothing resolvable, `get_token` raises the
missing-username `ConfigurationError` with no request and no password
resolution. -/
theorem get_token_configuration_errors_witness :
    get_token envNoUser "mytok" ["uid"] =
      { res := .raised (.configurationError missingUserMsg) } :=
  (get_token_configuration_errors envNoUser "mytok" ["uid"] rfl rfl).1 rfl

/-- Claim C10: a parsed 200 body whose `access_token` is present but falsy
(the empty string) also raises the missing-access-token `ServerError`, and
any successfully returned record carries a truthy (hence non-empty)
`access_token`. -/
theorem access_token_truthiness (config : Config) (realm : Option String)
    (scope : List String) (user : String) (password url : Option String)
    (insecure : Bool) (resp : Response) (d : Dict)
    (h200 : resp.status_code = 200) (hbody : resp.jsonBody = some d)
    (hempty : d.lookup "access_token" = some (JVal.jstr "")) :
    get_new_token config realm scope user password url insecure (respond resp) =
      .error (.serverError "Token Service returned invalid JSON (access_token missing)") ∧
    (∀ resp' d', get_new_token config realm scope user password url insecure (respond resp') =
        .ok d' → jvalOptTruthy (d'.lookup "access_token") = true) := by
  constructor
  · simp [get_new_token, respond, h200, hbody, hempty, jvalOptTruthy, JVal.truthy,
      String.isEmpty]
  · intro resp' d' h
    simp only [get_new_token, respond] at h
    split at h
    · exact absurd h (by simp)
    · split at h
      · exact absurd h (by simp)
      · split at h
        · exact absurd h (by simp)
        · split at h
          · exact absurd h (by simp)
          · rename_i d0 ht
            simp only [Except.ok.injEq] at h
            subst h
            simpa using ht

/-- Claim C10, witness: an empty-string `access_token` in a 200 response is
rejected with the missing-access-token `ServerError`. -/
theorem access_token_truthiness_witness :
    get_new_token {} none [] "u" (some "p") (some "http://x") false
      (respond ⟨200, "ok", some [("access_token", JVal.jstr "")]⟩) =
      .error (.serverError "Token Service returned invalid JSON (access_token missing)") :=
  (access_token_truthiness {} none [] "u" (some "p") (some "http://x") false
    ⟨200, "ok", some [("access_token", JVal.jstr "")]⟩ [("access_token", JVal.jstr "")]
    rfl rfl rfl).1

/-- Claim C7: after `store_token(name, record)`, looking `name` up in the
written (and re-loadable) cache yields the input record with its
`creation_time` overwritten to the save time and every other field
unchanged, and every other cache entry is preserved. -/
theorem store_token_roundtrip (raw : Except Unit (Option Cache)) (name : String)
    (result : Dict) (now : Int) :
    (store_token raw name result now).lookup name =
        some (alSet result "creation_time" (JVal.jnum now)) ∧
    (alSet result "creation_time" (JVal.jnum now)).lookup "creation_time" =
        some (JVal.jnum now) ∧
    (∀ k, k ≠ "creation_time" →
        (alSet result "creation_time" (JVal.jnum now)).lookup k = result.lookup k) ∧
    (∀ n, n ≠ name →
        (store_token raw name result now).lookup n = (get_tokens raw).lookup n) ∧
    get_tokens (Except.ok (some (store_token raw name result now))) =
        store_token raw name result now := by
  refine ⟨alSet_lookup_eq _ _ _, alSet_lookup_eq _ _ _, ?_, ?_, rfl⟩
  · intro k hk
    exact alSet_lookup_ne _ _ _ _ hk
  · intro n hn
    exact alSet_lookup_ne _ _ _ _ hn

/-- Claim C7, witness: storing "mytok" at time 17 into a cache holding
"other" gives back the stamped record under "mytok" and leaves "other"
untouched. -/
theorem store_token_roundtrip_witness :
    (store_token (Except.ok (some [("other", [("access_token", JVal.jstr "o")])])) "mytok"
        [("access_token", JVal.jstr "t"), ("expires_in", JVal.jnum 3600)] 17).lookup "mytok" =
      some (alSet [("access_token", JVal.jstr "t"), ("expires_in", JVal.jnum 3600)]
        "creation_time" (JVal.jnum 17)) ∧
    (store_token (Except.ok (some [("other", [("access_token", JVal.jstr "o")])])) "mytok"
        [("access_token", JVal.jstr "t"), ("expires_in", JVal.jnum 3600)] 17).lookup "other" =
      some [("access_token", JVal.jstr "o")] :=
  ⟨(store_token_roundtrip _ _ _ _).1,
   (store_token_roundtrip (Except.ok (some [("other", [("access_token", JVal.jstr "o")])]))
      "mytok" [("access_token", JVal.jstr "t"), ("expires_in", JVal.jnum 3600)] 17).2.2.2.1
      "other" (by decide)⟩

/-- Claim C8: loading the token cache never fails — a read or parse
exception, or a falsy parse result, yields the empty cache, and
`get_existing_token` on such a cache returns an absent result for every
name and time. -/
theorem cache_load_failure_safe (u : Unit) (name : String) (now : Int) :
    get_tokens (Except.error u) = [] ∧
    get_existing_token (Except.error u) name now = none ∧
    get_tokens (Except.ok none) = [] ∧
    get_existing_token (Except.ok none) name now = none :=
  ⟨rfl, rfl, rfl, rfl⟩

/-- Claim C9: whenever `get_named_token` is not short-circuited by a cached
token or a service token and its URL-resolution step completes, the
configuration is written back through `store_config`; in particular with an
explicitly supplied URL the unchanged configuration is rewritten as-is. -/
theorem named_token_stores_config (env : Env) (scope : List String)
    (realm name : Option String) (user : String) (password url : Option String)
    (insecure refresh use_keyring prompt : Bool)
    (hcache : (if optStrTruthy name && !refresh then
        get_existing_token env.cacheRaw (name.getD "") env.now else none) = none)
    (hsvc : ∃ v, (if optStrTruthy name && !optStrTruthy realm then
        get_service_token (env.tokensGet (name.getD "") scope) else .ok none) = Except.ok v ∧
        optStrTruthy v = false)
    (hurl : resolveUrl env.probe prompt (if optStrTruthy url then url else env.config.url)
        env.config env.urlPrompts ≠ none) :
    (get_named_token env scope realm name user password url insecure refresh use_keyring
        prompt).storedConfig.isSome = true ∧
    (optStrTruthy url = true →
      (get_named_token env scope realm name user password url insecure refresh use_keyring
        prompt).storedConfig = some env.config) := by
  obtain ⟨v, hv, hvf⟩ := hsvc
  obtain ⟨⟨url1, config1⟩, hpr⟩ : ∃ pr, resolveUrl env.probe prompt
      (if optStrTruthy url then url else env.config.url) env.config env.urlPrompts = some pr := by
    rcases hres : resolveUrl env.probe prompt (if optStrTruthy url then url else env.config.url)
        env.config env.urlPrompts with _ | pr
    · exact absurd hres hurl
    · exact ⟨pr, rfl⟩
  have hrw := get_named_token_issuance env scope realm name user password url insecure refresh
    use_keyring prompt url1 config1 v hcache hv hvf hpr
  constructor
  · rw [hrw]
    simp only []
    split <;> simp
  · intro hu
    have hpr2 : resolveUrl env.probe prompt (if optStrTruthy url then url else env.config.url)
        env.config env.urlPrompts = some (url, env.config) := by
      simp [resolveUrl, hu]
    have hc1 : config1 = env.config := by
      have := hpr.symm.trans hpr2
      simp at this
      exact this.2
    rw [hrw, hc1]
    simp only []
    split <;> simp

/-- Claim C9, witness: a run with an explicitly supplied URL, a configured
URL, and nothing changed still writes the configuration back unchanged. -/
theorem named_token_stores_config_witness :
    (get_named_token envExplicitUrl [] none none "u" none (some "http://x") false false false
        false).storedConfig = some envExplicitUrl.config :=
  (named_token_stores_config envExplicitUrl [] none none "u" none (some "http://x") false false
    false false rfl ⟨none, rfl, rfl⟩ (by simp [resolveUrl])).2 rfl
